import Mathlib

/-!
Verification of the go-wpa control-interface client.

The development shallowly embeds the Go sources:
* the datagram demultiplexer (`WPACtrl.receiveLoop`, `Command`, `OkCommand`,
  `FailCommand`),
* the event classifier (`NewWPASupplicantCtrl`, `parseReason`,
  `NewOnDisconnectedEvent`),
* the network-operations layer (`ListNetworks`),
* the test mock daemon (`WPAProcessMock.getNetwork`, `processMockCommand`).

Byte-level data (datagrams, the reader's 4096-byte buffer) is modelled as
`List Nat` (one `Nat` per byte); textual data is modelled with Lean `String`.
Go panics (index / slice out of range, nil dereference) are modelled by
explicit `crash`-style constructors or `Option.none`, never by silently
returning a value.
-/

namespace GoWPA

/-! ## Byte-level primitives -/

/-- The byte `'<'`. -/
def ltByte : Nat := 60

/-- The byte `'>'`. -/
def gtByte : Nat := 62

/-- ASCII decimal digit bytes `'0'..'9'`. -/
def isDigitByte (b : Nat) : Bool := 48 ≤ b && b ≤ 57

/-- ASCII whitespace bytes, as trimmed by Go's `strings.TrimSpace` on the
ASCII payloads this protocol carries: TAB, LF, VT, FF, CR, SP. -/
def isSpaceByte (b : Nat) : Bool :=
  b = 9 || b = 10 || b = 11 || b = 12 || b = 13 || b = 32

/-- `strings.TrimSpace`: drop whitespace bytes from both ends. -/
def trimSpace (l : List Nat) : List Nat :=
  ((l.dropWhile isSpaceByte).reverse.dropWhile isSpaceByte).reverse

/-- Bytes of a Lean string literal (ASCII payloads: one byte per char). -/
def strBytes (s : String) : List Nat := s.data.map Char.toNat

/-- `strings.HasPrefix`. -/
def hasPrefixStr (s pre : String) : Bool := pre.data.isPrefixOf s.data

/-- `strings.Split` on a single-character separator (every `Split` in
this codebase uses `" "`, `"\n"` or `"\t"`): splitting the empty string
yields `[""]`, and consecutive separators yield empty fields. -/
def splitOnChar (sep : Char) : List Char → List (List Char)
  | [] => [[]]
  | c :: rest =>
    if c = sep then [] :: splitOnChar sep rest
    else
      match splitOnChar sep rest with
      | [] => [[c]]
      | p :: ps => (c :: p) :: ps

/-- `strings.Split` at the `String` level. -/
def splitStr (sep : Char) (s : String) : List String :=
  (splitOnChar sep s.data).map String.mk

/-! ## The background reader (`WPACtrl.receiveLoop`)

The Go reader owns a fixed buffer `buf := make([]byte, 4096)` that is
*reused* across reads: a `Read` overwrites only the first `n` bytes, the
rest keeps stale data from earlier datagrams.  One loop iteration routes
the datagram to the event ("unsolicited") queue, the reply ("solicited")
queue, drops it, or panics. -/

/-- Size of the reader's reusable buffer (`make([]byte, 4096)`). -/
def bufLen : Nat := 4096

/-- The buffer contents at reader start (Go zero-initialises it). -/
def initBuf : List Nat := List.replicate bufLen 0

/-- Where one received datagram is routed by `receiveLoop`.
`event`/`reply` carry the enqueued (trimmed) payload; `drop` is the
silent discard of a malformed priority marker (and of a reply when the
1-slot reply queue is full, which we do not model further); `crash`
models a Go runtime panic inside the loop body. -/
inductive RecvAction where
  | event (msg : List Nat)
  | reply (msg : List Nat)
  | drop
  | crash
deriving DecidableEq, Repr

/-- One iteration of `receiveLoop` on buffer state `buf` receiving
datagram `d`: `n, _ := wc.c.Read(buf)` copies `min |d| 4096` bytes over
the front of `buf`, then the body inspects `buf[0]`, `len(buf) < 3`
(note: the *buffer* length, which is always 4096), `buf[2]`, and slices
`buf[3:n]` (which panics when `n < 3`) or `buf[:n]`.
Returns the new buffer state and the action taken. -/
def receiveStep (buf d : List Nat) : List Nat × RecvAction :=
  let n := min d.length bufLen
  let buf1 := d.take n ++ buf.drop n
  if buf1.getD 0 0 = ltByte then
    if buf1.length < 3 ∨ ¬ buf1.getD 2 0 = gtByte then
      (buf1, RecvAction.drop)
    else if n < 3 then
      -- Go evaluates `buf[3:n]` here; with `n < 3` this panics
      -- ("slice bounds out of range").
      (buf1, RecvAction.crash)
    else
      (buf1, RecvAction.event (trimSpace ((buf1.take n).drop 3)))
  else
    (buf1, RecvAction.reply (trimSpace (buf1.take n)))

/-- The datagram shape the spec calls an event: first three bytes
`'<'`, an ASCII digit, `'>'`. -/
def eventShape (d : List Nat) : Prop :=
  3 ≤ d.length ∧ d.getD 0 0 = ltByte ∧ isDigitByte (d.getD 1 0) = true ∧
    d.getD 2 0 = gtByte

instance (d : List Nat) : Decidable (eventShape d) := by
  unfold eventShape; infer_instance

/-! ## `Command` and its helpers

`Command` writes the command, then `select`s on the reply queue versus
the timeout.  We embed one call as a function of the write outcome and
of which `select` arm fires.  Errors are modelled by `CmdErr`, with
`errText` the Go error's `Error()` text. -/

/-- Which arm of `Command`'s `select` fires. -/
inductive RecvResult where
  | value (msg : String)  -- a reply arrived on the queue
  | closed                -- the queue was closed before a value arrived
  | timeout               -- `time.After(wc.cmdTimeout)` fired first
deriving DecidableEq, Repr

/-- The errors `WPACtrl` can produce, with their Go texts:
`fmt.Errorf("command error: %v", err)`, `errors.New("failed")`,
`ErrTimeout = errors.New("cmd timeout")`, `errors.New(rsp)`. -/
inductive CmdErr where
  | writeErr (cause : String)
  | closed
  | timeout
  | replyErr (text : String)
deriving DecidableEq, Repr

/-- `Error()` text of each `CmdErr`. -/
def errText : CmdErr → String
  | CmdErr.writeErr cause => "command error: " ++ cause
  | CmdErr.closed => "failed"
  | CmdErr.timeout => "cmd timeout"
  | CmdErr.replyErr t => t

/-- `WPACtrl.Command`: a write error is surfaced immediately; otherwise
the result is the reply value, the closed-queue error, or the timeout
error, depending on which `select` arm fires. -/
def command (writeRes : Option String) (recv : RecvResult) :
    Except CmdErr String :=
  match writeRes with
  | some cause => Except.error (CmdErr.writeErr cause)
  | none =>
    match recv with
    | RecvResult.value msg => Except.ok msg
    | RecvResult.closed => Except.error CmdErr.closed
    | RecvResult.timeout => Except.error CmdErr.timeout

/-- `WPACtrl.OkCommand` applied to the result of its inner `Command`
call: errors pass through, `"OK"` means success, any other reply `rsp`
becomes `errors.New(rsp)`.  `none` = no error. -/
def okCommand (res : Except CmdErr String) : Option CmdErr :=
  match res with
  | Except.error e => some e
  | Except.ok rsp => if rsp = "OK" then none else some (CmdErr.replyErr rsp)

/-- `WPACtrl.FailCommand` applied to the result of its inner `Command`
call: errors pass through, `"FAIL"` becomes `errors.New("FAIL")`, any
other reply is returned unchanged. -/
def failCommand (res : Except CmdErr String) : Except CmdErr String :=
  match res with
  | Except.error e => Except.error e
  | Except.ok rsp =>
    if rsp = "FAIL" then Except.error (CmdErr.replyErr rsp) else Except.ok rsp

/-- `OkCommand` as a whole call: `OkCommand(cmd)` runs `Command(cmd)`
and post-processes its result. -/
def okCommandRun (writeRes : Option String) (recv : RecvResult) :
    Option CmdErr :=
  okCommand (command writeRes recv)

/-- `FailCommand` as a whole call. -/
def failCommandRun (writeRes : Option String) (recv : RecvResult) :
    Except CmdErr String :=
  failCommand (command writeRes recv)

/-! ## Disconnect reason decoding (`parseReason`, `NewOnDisconnectedEvent`)

`parseReason` applies the Go regexp
`CTRL-EVENT-DISCONNECTED.*?reason=([0-9]+)` via `FindStringSubmatch`:
leftmost match, lazy `.*?` (which does not cross `'\n'`), greedy digit
group.  We embed the regexp's search directly. -/

/-- Scan a suffix for the first position where `"reason="` is followed by
at least one digit, without crossing a newline (Go's `.` does not match
`'\n'`).  Returns the maximal digit run after `"reason="`. -/
def findReasonAfter : List Char → Option (List Char)
  | [] => none
  | c :: rest =>
    if "reason=".data.isPrefixOf (c :: rest) ∧
        ((c :: rest).drop 7).takeWhile Char.isDigit ≠ [] then
      some (((c :: rest).drop 7).takeWhile Char.isDigit)
    else if c = '\n' then none
    else findReasonAfter rest

/-- Leftmost match of the whole pattern: the first position where the
literal `"CTRL-EVENT-DISCONNECTED"` occurs and a `reason=`-with-digits
token follows it (with no intervening newline). -/
def findReasonMatch : List Char → Option (List Char)
  | [] => none
  | c :: rest =>
    if "CTRL-EVENT-DISCONNECTED".data.isPrefixOf (c :: rest) then
      match findReasonAfter ((c :: rest).drop 23) with
      | some ds => some ds
      | none => findReasonMatch rest
    else findReasonMatch rest

/-- `parseReason`: the captured digit group of the regexp match, or
`"0"` when there is no match (`len(found) < 2`). -/
def parseReason (msg : String) : String :=
  match findReasonMatch msg.data with
  | some ds => String.mk ds
  | none => "0"

/-- `commonReasonCodes` (IEEE 802.11 reason codes), as in the source. -/
def commonReasonCodes : List (String × String) :=
  [("2", "invalid-auth"),
   ("3", "sta-left-ess"),
   ("4", "inactivity"),
   ("5", "ap-overloaded"),
   ("6", "class-2-nonauth"),
   ("7", "class-3-nonassoc"),
   ("8", "sta-left-bss"),
   ("9", "not-authenticated-responder"),
   ("10", "bad-power-cap"),
   ("11", "bad-channels"),
   ("14", "mic-failure"),
   ("15", "four-way-handshake-timeout"),
   ("16", "group-key-handshake-timeout"),
   ("17", "four-way-handshake-mismatch"),
   ("18", "invalid-group-cipher"),
   ("19", "invalid-pairwise-cipher"),
   ("20", "invalid-akmp"),
   ("21", "unsupported-rsn"),
   ("22", "invalid-rsn"),
   ("23", "8021x-auth-failed"),
   ("24", "cipher-rejcted-due-to-policy"),
   ("32", "qos"),
   ("33", "qos-bandwidth"),
   ("34", "noisy-channel-cant-ack"),
   ("35", "outside-txop-limits"),
   ("36", "peer-leaving-bss"),
   ("37", "peer-rejects-mechanism"),
   ("38", "peer-mechanism-needs-setup"),
   ("39", "peer-timeout"),
   ("45", "peer-cipher-suite-not-supported")]

/-- Go map indexing `commonReasonCodes[reason]`: the mapped label, or
the zero value `""` for an absent key. -/
def lookupReason (code : String) : String :=
  (commonReasonCodes.lookup code).getD ""

/-- The `OnDisconnectedEvent` struct: raw message plus rendered reason. -/
structure OnDisconnectedEvent where
  raw : String
  reason : String
deriving DecidableEq, Repr

/-- `NewOnDisconnectedEvent`: parse the reason code and render it as
`fmt.Sprintf("%s:%s", reason, commonReasonCodes[reason])`. -/
def NewOnDisconnectedEvent (msg : String) : OnDisconnectedEvent :=
  { raw := msg, reason := parseReason msg ++ ":" ++ lookupReason (parseReason msg) }

/-- The `Reason()` accessor. -/
def OnDisconnectedEvent.Reason (e : OnDisconnectedEvent) : String := e.reason

/-! ## Event classification (`NewWPASupplicantCtrl`'s drain goroutine) -/

/-- The typed event variants (`OnConnectedEvent`, …, with `onEvent` the
`OnEvent` catch-all; `onScan` is the `OnScanEvent` used for
`CTRL-EVENT-BSS-ADDED`). -/
inductive WPAEvent where
  | onConnected (raw : String)
  | onDisconnected (e : OnDisconnectedEvent)
  | onNotFound (raw : String)
  | onScanFailed (raw : String)
  | onScanStarted (raw : String)
  | onScanResults (raw : String)
  | onScan (raw : String)
  | onEvent (raw : String)
deriving DecidableEq, Repr

/-- The classifier body: the if/else-if chain over `strings.HasPrefix`
from `NewWPASupplicantCtrl`. -/
def classifyEvent (msg : String) : WPAEvent :=
  if hasPrefixStr msg "CTRL-EVENT-CONNECTED" then WPAEvent.onConnected msg
  else if hasPrefixStr msg "CTRL-EVENT-DISCONNECTED" then
    WPAEvent.onDisconnected (NewOnDisconnectedEvent msg)
  else if hasPrefixStr msg "CTRL-EVENT-NETWORK-NOT-FOUND" then WPAEvent.onNotFound msg
  else if hasPrefixStr msg "CTRL-EVENT-SCAN-FAILED" then WPAEvent.onScanFailed msg
  else if hasPrefixStr msg "CTRL-EVENT-SCAN-STARTED" then WPAEvent.onScanStarted msg
  else if hasPrefixStr msg "CTRL-EVENT-SCAN-RESULTS" then WPAEvent.onScanResults msg
  else if hasPrefixStr msg "CTRL-EVENT-BSS-ADDED" then WPAEvent.onScan msg
  else WPAEvent.onEvent msg

/-- Specification-side table: the fixed ordered list of known event
kinds, pairing each recognized marker with its variant constructor. -/
def eventKindTable : List (String × (String → WPAEvent)) :=
  [("CTRL-EVENT-CONNECTED", WPAEvent.onConnected),
   ("CTRL-EVENT-DISCONNECTED", fun m => WPAEvent.onDisconnected (NewOnDisconnectedEvent m)),
   ("CTRL-EVENT-NETWORK-NOT-FOUND", WPAEvent.onNotFound),
   ("CTRL-EVENT-SCAN-FAILED", WPAEvent.onScanFailed),
   ("CTRL-EVENT-SCAN-STARTED", WPAEvent.onScanStarted),
   ("CTRL-EVENT-SCAN-RESULTS", WPAEvent.onScanResults),
   ("CTRL-EVENT-BSS-ADDED", WPAEvent.onScan)]

/-- Specification-side classifier, following the spec's words: match the
payload against the ordered table, first matching marker wins, and a
payload matching none of them maps to the Generic catch-all. -/
def classifyFirstMatch : List (String × (String → WPAEvent)) → String → WPAEvent
  | [], msg => WPAEvent.onEvent msg
  | (p, mk) :: rest, msg =>
    if hasPrefixStr msg p then mk msg else classifyFirstMatch rest msg

/-! ## Network operations (`WPASupplicantCtrl.ListNetworks`) -/

/-- The `Network` struct. -/
structure Network where
  ID : String
  SSID : String
deriving DecidableEq, Repr

/-- One line of the `LIST_NETWORKS` body: `f := strings.Split(net, "\t")`
then `Network{ID: f[0], SSID: f[1]}`.  `f` is never empty, so `f[0]`
always exists; `f[1]` panics (index out of range) when the line has a
single field — modelled by `none`. -/
def parseLine (net : String) : Option Network :=
  match splitStr '\t' net with
  | f0 :: f1 :: _ => some { ID := f0, SSID := f1 }
  | _ => none

/-- The parsing loop of `ListNetworks`, in reply order; `none` as soon
as some line panics. -/
def parseNetworks : List String → Option (List Network)
  | [] => some []
  | l :: rest =>
    match parseLine l, parseNetworks rest with
    | some n, some ns => some (n :: ns)
    | _, _ => none

/-- `nets := strings.Split(rsp, "\n")[1:]` (the header line is
discarded; `Split` always returns at least one element) followed by the
parsing loop. -/
def listNetworksParse (rsp : String) : Option (List Network) :=
  parseNetworks ((splitStr '\n' rsp).drop 1)

/-- The observable outcome of a `ListNetworks` call. -/
inductive ListOutcome where
  | err (e : CmdErr)
  | ok (nets : List Network)
  | crash
deriving DecidableEq, Repr

/-- `ListNetworks` applied to the result of its inner `Command` call:
`FailCommand("LIST_NETWORKS")` first, then the parsing loop (whose
index-out-of-range panic is `crash`). -/
def listNetworks (res : Except CmdErr String) : ListOutcome :=
  match failCommand res with
  | Except.error e => ListOutcome.err e
  | Except.ok rsp =>
    match listNetworksParse rsp with
    | some nets => ListOutcome.ok nets
    | none => ListOutcome.crash

/-- The spec-side `Network` of a reply line: field 0 is the id, field 1
the ssid. -/
def lineNet (l : String) : Network :=
  { ID := (splitStr '\t' l).getD 0 "", SSID := (splitStr '\t' l).getD 1 "" }

/-! ## The mock daemon (`wpatest.WPAProcessMock`) -/

/-- The mock's `network` struct. -/
structure MockNetwork where
  id : Int
  ssid : String
  psk : String
  flags : String
deriving DecidableEq, Repr

/-- `strconv.Atoi`: optional sign followed by a nonempty digit run;
anything else is an error (`none`).  (Overflow is not modelled.) -/
def digitsVal (l : List Char) : Nat :=
  l.foldl (fun acc c => acc * 10 + (c.toNat - 48)) 0

/-- See `digitsVal`. -/
def atoi (s : String) : Option Int :=
  match s.data with
  | [] => none
  | '+' :: rest =>
    if rest ≠ [] ∧ rest.all Char.isDigit then some (digitsVal rest) else none
  | '-' :: rest =>
    if rest ≠ [] ∧ rest.all Char.isDigit then some (-(digitsVal rest : Int)) else none
  | l => if l.all Char.isDigit then some (digitsVal l) else none

/-- Result of `getNetwork`: the Go function returns a `*network` that is
either `nil`, or a (possibly nil) slice element; indexing out of range
panics.  `found` records the slice index that was read, since callers
mutate through the returned pointer. -/
inductive NetLookup where
  | nil
  | crash
  | found (idx : Nat) (n : MockNetwork)
deriving DecidableEq, Repr

/-- `WPAProcessMock.getNetwork`: the guard is
`id < 0 || id > len(w.networks)` — note `>` rather than `>=` — and then
`w.networks[id]`, which panics when `id == len(w.networks)`.
The mock's slice holds `*network` entries, so removed slots are `none`. -/
def getNetwork (networks : List (Option MockNetwork)) (id : Int) : NetLookup :=
  if id < 0 ∨ id > (networks.length : Int) then NetLookup.nil
  else
    match networks.get? id.toNat with
    | none => NetLookup.crash
    | some none => NetLookup.nil
    | some (some n) => NetLookup.found id.toNat n

/-- `WPAProcessMock.getNetworkStr`: `strconv.Atoi` then `getNetwork`;
a parse error yields the nil pointer. -/
def getNetworkStr (networks : List (Option MockNetwork)) (idstr : String) :
    NetLookup :=
  match atoi idstr with
  | none => NetLookup.nil
  | some id => getNetwork networks id

/-- Result of `processMockCommand`: a reply plus the updated network
slice, or a runtime panic. -/
inductive MockResult where
  | reply (networks : List (Option MockNetwork)) (rsp : String)
  | crash
deriving DecidableEq, Repr

/-- `fmt.Sprintf("%d\t%s\t\t[%s]", net.id, net.ssid, net.flags)`. -/
def fmtMockNet (net : MockNetwork) : String :=
  toString net.id ++ "\t" ++ net.ssid ++ "\t\t[" ++ net.flags ++ "]"

/-- `WPAProcessMock.processMockCommand`.  `fields := strings.Split(cmd, " ")`
(never empty), switch on `fields[0]`.  Panics modelled by `crash`:
dereferencing a nil `*network` entry while formatting `LIST_NETWORKS`
lines, and slice indexing out of range (`getNetwork`, and the
`w.networks[net.id] = nil` store in `REMOVE_NETWORK`).  The
`go w.OnNetworkEnabled(net.id)` goroutine of `ENABLE_NETWORK` is outside
the reply path and is not modelled. -/
def processMockCommand (networks : List (Option MockNetwork)) (cmd : String) :
    MockResult :=
  let fields := splitStr ' ' cmd
  match fields.headD "" with
  | "PING" => MockResult.reply networks "PONG"
  | "ATTACH" => MockResult.reply networks "OK"
  | "LIST_NETWORKS" =>
    match networks.mapM (fun entry => entry) with
    | none => MockResult.crash
    | some nets =>
      MockResult.reply networks
        (String.intercalate "\n"
          ("network id / ssid / bssid / flags" :: nets.map fmtMockNet))
  | "ADD_NETWORK" =>
    let id := networks.length
    MockResult.reply
      (networks ++ [some { id := (id : Int), ssid := "", psk := "", flags := "" }])
      (toString id)
  | "REMOVE_NETWORK" =>
    if fields.length < 2 then MockResult.reply networks "FAIL"
    else
      match getNetworkStr networks (fields.getD 1 "") with
      | NetLookup.nil => MockResult.reply networks "FAIL"
      | NetLookup.crash => MockResult.crash
      | NetLookup.found _ net =>
        if net.id = (networks.length : Int) - 1 then
          MockResult.reply (networks.take (networks.length - 1)) "OK"
        else if 0 ≤ net.id ∧ net.id.toNat < networks.length then
          MockResult.reply (networks.set net.id.toNat none) "OK"
        else MockResult.crash
  | "ENABLE_NETWORK" =>
    if fields.length < 2 then MockResult.reply networks "FAIL"
    else
      match getNetworkStr networks (fields.getD 1 "") with
      | NetLookup.nil => MockResult.reply networks "FAIL"
      | NetLookup.crash => MockResult.crash
      | NetLookup.found idx net =>
        MockResult.reply (networks.set idx (some { net with flags := "CURRENT" })) "OK"
  | "SET_NETWORK" =>
    if fields.length < 4 then MockResult.reply networks "FAIL"
    else
      match getNetworkStr networks (fields.getD 1 "") with
      | NetLookup.nil => MockResult.reply networks "FAIL"
      | NetLookup.crash => MockResult.crash
      | NetLookup.found idx net =>
        match fields.getD 2 "" with
        | "ssid" =>
          MockResult.reply
            (networks.set idx (some { net with ssid := trimQuotes (fields.getD 3 "") })) "OK"
        | "psk" =>
          MockResult.reply
            (networks.set idx (some { net with psk := trimQuotes (fields.getD 3 "") })) "OK"
        | _ => MockResult.reply networks "FAIL"
  | f0 => MockResult.reply networks ("UNKNOWN_COMMAND: " ++ f0)
where
  /-- `strings.Trim(s, "\"")`: strip leading and trailing `'"'` runs. -/
  trimQuotes (s : String) : String :=
    String.mk (((s.data.dropWhile (fun c => c = '"')).reverse.dropWhile
      (fun c => c = '"')).reverse)

end GoWPA

namespace GoWPA

/-! ## Helper lemmas -/

theorem initBuf_length : initBuf.length = bufLen := by simp [initBuf]

/-- Characterization of one reader iteration under the buffer-length
invariant: the buffer keeps length 4096, so the `len(buf) < 3` test is
always false, and the routed payloads come from the datagram. -/
theorem receiveStep_eq (buf d : List Nat) (hb : buf.length = bufLen)
    (hd : d.length ≤ bufLen) :
    receiveStep buf d =
      (d ++ buf.drop d.length,
        if (d ++ buf.drop d.length).getD 0 0 = ltByte then
          if ¬ (d ++ buf.drop d.length).getD 2 0 = gtByte then RecvAction.drop
          else if d.length < 3 then RecvAction.crash
          else RecvAction.event (trimSpace (d.drop 3))
        else RecvAction.reply (trimSpace d)) := by
  have hn : min d.length bufLen = d.length := Nat.min_eq_left hd
  have hlen : (d ++ buf.drop d.length).length = bufLen := by
    rw [List.length_append, List.length_drop, hb]; omega
  have hnot3 : ¬ ((d ++ buf.drop d.length).length < 3) := by
    rw [hlen]; norm_num [bufLen]
  have htake : (d ++ buf.drop d.length).take d.length = d := List.take_left d _
  simp only [receiveStep, hn, List.take_length, htake, hnot3, false_or]
  split_ifs <;> rfl

theorem parseLine_of_two (l : String) (h : 2 ≤ (splitStr '\t' l).length) :
    parseLine l = some (lineNet l) := by
  cases hs : splitStr '\t' l with
  | nil => rw [hs] at h; simp at h
  | cons a t =>
    cases t with
    | nil => rw [hs] at h; simp at h
    | cons b t2 => simp [parseLine, lineNet, hs]

theorem parseLine_of_short (l : String) (h : (splitStr '\t' l).length < 2) :
    parseLine l = none := by
  cases hs : splitStr '\t' l with
  | nil => simp [parseLine, hs]
  | cons a t =>
    cases t with
    | nil => simp [parseLine, hs]
    | cons b t2 => rw [hs] at h; simp at h; omega

theorem parseNetworks_of_all (ls : List String)
    (h : ∀ l ∈ ls, 2 ≤ (splitStr '\t' l).length) :
    parseNetworks ls = some (ls.map lineNet) := by
  induction ls with
  | nil => rfl
  | cons l rest ih =>
    have h1 := h l (by simp)
    have h2 : ∀ x ∈ rest, 2 ≤ (splitStr '\t' x).length :=
      fun x hx => h x (by simp [hx])
    simp [parseNetworks, parseLine_of_two l h1, ih h2]

theorem parseNetworks_of_bad (ls : List String)
    (h : ∃ l ∈ ls, (splitStr '\t' l).length < 2) :
    parseNetworks ls = none := by
  induction ls with
  | nil => simp at h
  | cons l rest ih =>
    rcases h with ⟨x, hx, hlen⟩
    rcases List.mem_cons.mp hx with hx0 | hxr
    · subst hx0
      unfold parseNetworks
      rw [parseLine_of_short _ hlen]
    · unfold parseNetworks
      rw [ih ⟨x, hxr, hlen⟩]
      cases parseLine l <;> rfl

/-! ## Claim theorems -/

/-- C1 (counterexample): the reader does NOT classify by the spec shape
`'<'`-digit-`'>'`.  The datagram `"<a>FOO"` is not of the event shape
(its second byte is not a digit) yet it is enqueued as an event, and the
datagram `"<abc"` is not of the event shape yet it is dropped rather
than treated as a reply. -/
theorem C1_counterexample :
    ((receiveStep initBuf (strBytes "<a>FOO")).2 =
        RecvAction.event (strBytes "FOO") ∧
      ¬ eventShape (strBytes "<a>FOO")) ∧
    ((receiveStep initBuf (strBytes "<abc")).2 = RecvAction.drop ∧
      ¬ eventShape (strBytes "<abc")) := by
  refine ⟨⟨?_, by decide⟩, ⟨?_, by decide⟩⟩
  · rw [receiveStep_eq initBuf (strBytes "<a>FOO") initBuf_length (by decide)]
    decide
  · rw [receiveStep_eq initBuf (strBytes "<abc") initBuf_length (by decide)]
    decide

/-- C1 (amended): for every buffer state of the invariant length and
every datagram of at least 3 bytes (and at most the buffer size), the
reader enqueues it on the event queue iff its first byte is `'<'` and
its third byte is `'>'` — the priority digit is never checked; a
datagram starting `'<'` whose third byte is not `'>'` is dropped; a
datagram not starting with `'<'` is routed to the reply queue. -/
theorem C1_classification (buf d : List Nat) (hb : buf.length = bufLen)
    (h3 : 3 ≤ d.length) (hd : d.length ≤ bufLen) :
    (d.getD 0 0 = ltByte ∧ d.getD 2 0 = gtByte →
      (receiveStep buf d).2 = RecvAction.event (trimSpace (d.drop 3)))
    ∧ (d.getD 0 0 = ltByte ∧ ¬ d.getD 2 0 = gtByte →
      (receiveStep buf d).2 = RecvAction.drop)
    ∧ (¬ d.getD 0 0 = ltByte →
      (receiveStep buf d).2 = RecvAction.reply (trimSpace d)) := by
  have g0 : (d ++ buf.drop d.length).getD 0 0 = d.getD 0 0 :=
    List.getD_append _ _ _ _ (by omega)
  have g2 : (d ++ buf.drop d.length).getD 2 0 = d.getD 2 0 :=
    List.getD_append _ _ _ _ (by omega)
  rw [receiveStep_eq buf d hb hd]
  refine ⟨fun h => ?_, fun h => ?_, fun h => ?_⟩
  · simp only [g0, g2, h.1, h.2, if_neg (show ¬ (d.length < 3) from by omega)]
    simp
  · simp only [g0, g2, h.1, h.2]
    simp
  · simp only [g0]
    rw [if_neg h]

/-- C1 (witness): the amended classification applied to the concrete
well-formed event datagram `"<5>EVT"` on the fresh buffer. -/
theorem C1_classification_witness :
    (receiveStep initBuf (strBytes "<5>EVT")).2 =
      RecvAction.event (trimSpace ((strBytes "<5>EVT").drop 3)) :=
  (C1_classification initBuf (strBytes "<5>EVT") initBuf_length
    (by decide) (by decide)).1 ⟨by decide, by decide⟩

/-- C2 (counterexample): a `LIST_NETWORKS` reply with a line of fewer
than 2 tab-separated fields makes `ListNetworks` panic (index out of
range on `f[1]`), not return a parse error. -/
theorem C2_counterexample :
    listNetworks (Except.ok "network id / ssid / bssid / flags\nmalformed-line") =
      ListOutcome.crash
    ∧ (∀ e : CmdErr,
        listNetworks (Except.ok "network id / ssid / bssid / flags\nmalformed-line") ≠
          ListOutcome.err e) := by
  have h : listNetworks (Except.ok "network id / ssid / bssid / flags\nmalformed-line") =
      ListOutcome.crash := by decide
  exact ⟨h, fun e hh => ListOutcome.noConfusion (h ▸ hh)⟩

/-- C2 (amended): for every reply (other than `"FAIL"`, which
`FailCommand` turns into an error first), `ListNetworks` discards the
first line and parses each subsequent tab-separated line into
`Network{ID: field 0, SSID: field 1}` preserving the reply order; a
reply containing a line with fewer than 2 tab-separated fields makes it
panic (index out of range) rather than return a parse error or skip the
line. -/
theorem C2_listNetworks (rsp : String) (hns : rsp ≠ "FAIL") :
    ((∀ l ∈ (splitStr '\n' rsp).drop 1, 2 ≤ (splitStr '\t' l).length) →
      listNetworks (Except.ok rsp) =
        ListOutcome.ok (((splitStr '\n' rsp).drop 1).map lineNet))
    ∧ ((∃ l ∈ (splitStr '\n' rsp).drop 1, (splitStr '\t' l).length < 2) →
      listNetworks (Except.ok rsp) = ListOutcome.crash) := by
  have hfc : failCommand (Except.ok rsp) = Except.ok rsp := by
    simp [failCommand, hns]
  constructor
  · intro h
    simp only [listNetworks, hfc, listNetworksParse, parseNetworks_of_all _ h]
  · intro h
    simp only [listNetworks, hfc, listNetworksParse, parseNetworks_of_bad _ h]

/-- C2 (witness): the amended statement applied to the concrete daemon
reply from the round-trip test (one network `0`/`foossid`). -/
theorem C2_listNetworks_witness :
    listNetworks (Except.ok "network id / ssid / bssid / flags\n0\tfoossid\t\t[]") =
      ListOutcome.ok
        (((splitStr '\n' "network id / ssid / bssid / flags\n0\tfoossid\t\t[]").drop 1).map
          lineNet) :=
  (C2_listNetworks _ (by decide)).1 (by decide)

/-- C3: `NewOnDisconnectedEvent`s `Reason()` always renders
`"<code>:<label-or-empty>"` where the code is the parsed `reason=`
digits and the label the Reason-Table entry, and on the four spec
vectors it yields `"2:invalid-auth"`, `"0:"`, `"1235:"`, `"0:"`. -/
theorem C3_disconnect_reason :
    (∀ msg : String, (NewOnDisconnectedEvent msg).Reason =
      parseReason msg ++ ":" ++ lookupReason (parseReason msg))
    ∧ (NewOnDisconnectedEvent
        "CTRL-EVENT-DISCONNECTED bssid=00:1a:dd:18:f2:45 reason=2").Reason =
      "2:invalid-auth"
    ∧ (NewOnDisconnectedEvent
        "CTRL-EVENT-DISCONNECTED bssid=00:1a:dd:18:f2:45").Reason = "0:"
    ∧ (NewOnDisconnectedEvent
        "CTRL-EVENT-DISCONNECTED bssid=00:1a:dd:18:f2:45 reason=1235").Reason =
      "1235:"
    ∧ (NewOnDisconnectedEvent
        "CTRL-EVENT-DISCONNECTED bssid=00:1a:dd:18:f2:45 reason=asdf4").Reason =
      "0:" :=
  ⟨fun _ => rfl, by decide, by decide, by decide, by decide⟩

/-- C4: event classification is total and prefix-based: for every
payload the classifier equals the first-matching-marker rule over the
fixed ordered table, and a payload matching none of the known markers
maps to the Generic catch-all wrapping the raw message. -/
theorem C4_classifier_total (msg : String) :
    classifyEvent msg = classifyFirstMatch eventKindTable msg
    ∧ ((∀ p ∈ eventKindTable.map Prod.fst, hasPrefixStr msg p = false) →
      classifyEvent msg = WPAEvent.onEvent msg) := by
  constructor
  · rfl
  · intro h
    have h1 := h "CTRL-EVENT-CONNECTED" (by simp [eventKindTable])
    have h2 := h "CTRL-EVENT-DISCONNECTED" (by simp [eventKindTable])
    have h3 := h "CTRL-EVENT-NETWORK-NOT-FOUND" (by simp [eventKindTable])
    have h4 := h "CTRL-EVENT-SCAN-FAILED" (by simp [eventKindTable])
    have h5 := h "CTRL-EVENT-SCAN-STARTED" (by simp [eventKindTable])
    have h6 := h "CTRL-EVENT-SCAN-RESULTS" (by simp [eventKindTable])
    have h7 := h "CTRL-EVENT-BSS-ADDED" (by simp [eventKindTable])
    simp [classifyEvent, h1, h2, h3, h4, h5, h6, h7]

/-- C4 (witness): an unrecognized payload classifies to the Generic
catch-all, and equals the table rule, at `"CTRL-EVENT-SOMETHING"`. -/
theorem C4_classifier_witness :
    classifyEvent "CTRL-EVENT-SOMETHING" = WPAEvent.onEvent "CTRL-EVENT-SOMETHING"
    ∧ classifyEvent "CTRL-EVENT-SOMETHING" =
      classifyFirstMatch eventKindTable "CTRL-EVENT-SOMETHING" :=
  ⟨(C4_classifier_total "CTRL-EVENT-SOMETHING").2 (by decide),
   (C4_classifier_total "CTRL-EVENT-SOMETHING").1⟩

/-- C5: the claim says a short (< 3 bytes) datagram starting `'<'` is
dropped, but the code checks `len(buf) < 3` on the 4096-byte buffer and
`buf[2]` against stale bytes: after the event datagram `"<3>EVT"`, the
1-byte datagram `"<"` finds the stale `'>'` at `buf[2]` and the slice
`buf[3:1]` panics instead of dropping. -/
theorem C5_short_datagram :
    (receiveStep initBuf (strBytes "<3>EVT")).2 =
      RecvAction.event (strBytes "EVT")
    ∧ (receiveStep (receiveStep initBuf (strBytes "<3>EVT")).1
        (strBytes "<")).2 = RecvAction.crash := by
  have h1 := receiveStep_eq initBuf (strBytes "<3>EVT") initBuf_length (by decide)
  have hb2 : (strBytes "<3>EVT" ++ initBuf.drop (strBytes "<3>EVT").length).length =
      bufLen := by
    rw [List.length_append, List.length_drop, initBuf_length]; decide
  constructor
  · rw [h1]; decide
  · rw [h1]
    show (receiveStep (strBytes "<3>EVT" ++ initBuf.drop (strBytes "<3>EVT").length)
      (strBytes "<")).2 = RecvAction.crash
    rw [receiveStep_eq _ _ hb2 (by decide)]
    decide

/-- C6: when the reply received for a command is `"OK"`, `OkCommand`
returns no error; for every other reply `R` it returns an error whose
text is exactly `R`. -/
theorem C6_okCommand (R : String) :
    (R = "OK" → okCommandRun none (RecvResult.value R) = none)
    ∧ (R ≠ "OK" →
      okCommandRun none (RecvResult.value R) = some (CmdErr.replyErr R)
      ∧ errText (CmdErr.replyErr R) = R) := by
  constructor
  · intro h; simp [okCommandRun, okCommand, command, h]
  · intro h; exact ⟨by simp [okCommandRun, okCommand, command, h], rfl⟩

/-- C6 (witness): `OkCommand` on replies `"OK"` and `"FAIL"`. -/
theorem C6_okCommand_witness :
    okCommandRun none (RecvResult.value "OK") = none
    ∧ (okCommandRun none (RecvResult.value "FAIL") = some (CmdErr.replyErr "FAIL")
      ∧ errText (CmdErr.replyErr "FAIL") = "FAIL") :=
  ⟨(C6_okCommand "OK").1 rfl, (C6_okCommand "FAIL").2 (by decide)⟩

/-- C7: when the reply received for a command is `"FAIL"`, `FailCommand`
returns an error (with text `"FAIL"`); every other reply, including
`"OK"`, is returned unchanged with no error. -/
theorem C7_failCommand (R : String) :
    (R = "FAIL" →
      failCommandRun none (RecvResult.value R) = Except.error (CmdErr.replyErr R)
      ∧ errText (CmdErr.replyErr R) = R)
    ∧ (R ≠ "FAIL" → failCommandRun none (RecvResult.value R) = Except.ok R) := by
  constructor
  · intro h; exact ⟨by simp [failCommandRun, failCommand, command, h], rfl⟩
  · intro h; simp [failCommandRun, failCommand, command, h]

/-- C7 (witness): `FailCommand` on replies `"FAIL"` and `"OK"`. -/
theorem C7_failCommand_witness :
    (failCommandRun none (RecvResult.value "FAIL") =
        Except.error (CmdErr.replyErr "FAIL")
      ∧ errText (CmdErr.replyErr "FAIL") = "FAIL")
    ∧ failCommandRun none (RecvResult.value "OK") = Except.ok "OK" :=
  ⟨(C7_failCommand "FAIL").1 rfl, (C7_failCommand "OK").2 (by decide)⟩

/-- C8: when the reply queue closes before a value arrives, `Command`
returns the closed-connection error immediately; that error is a
distinct kind: it differs from the timeout error (as a value and in
text) and from every transport write error (as a value and in text). -/
theorem C8_closed_error :
    command none RecvResult.closed = Except.error CmdErr.closed
    ∧ command none RecvResult.timeout = Except.error CmdErr.timeout
    ∧ CmdErr.closed ≠ CmdErr.timeout
    ∧ errText CmdErr.closed ≠ errText CmdErr.timeout
    ∧ (∀ s : String, CmdErr.closed ≠ CmdErr.writeErr s
        ∧ errText (CmdErr.writeErr s) ≠ errText CmdErr.closed) := by
  refine ⟨rfl, rfl, by decide, by decide, fun s => ⟨?_, ?_⟩⟩
  · intro h; exact CmdErr.noConfusion h
  · intro h
    have hl := congrArg String.length h
    rw [show errText (CmdErr.writeErr s) = "command error: " ++ s from rfl,
      String.length_append] at hl
    have e1 : ("command error: " : String).length = 15 := rfl
    have e2 : (errText CmdErr.closed).length = 6 := rfl
    omega

/-- C8 (witness): the distinctness facts instantiated at the concrete
write-error cause `"x"`. -/
theorem C8_closed_error_witness :
    CmdErr.closed ≠ CmdErr.writeErr "x"
    ∧ errText (CmdErr.writeErr "x") ≠ errText CmdErr.closed :=
  C8_closed_error.2.2.2.2 "x"

/-- C9 (implicit): every reply routed to a `Command` caller is
whitespace-trimmed by the reader before delivery, exactly as event
payloads are; concretely a daemon reply `"OK\n"` is delivered as `"OK"`
and hence accepted by `OkCommand`. -/
theorem C9_reply_trimmed :
    (∀ buf d : List Nat, buf.length = bufLen → d.length ≤ bufLen →
      0 < d.length → ¬ d.getD 0 0 = ltByte →
      (receiveStep buf d).2 = RecvAction.reply (trimSpace d))
    ∧ (receiveStep initBuf (strBytes "OK\n")).2 = RecvAction.reply (strBytes "OK")
    ∧ okCommandRun none (RecvResult.value "OK") = none := by
  refine ⟨fun buf d hb hd h0 hne => ?_, ?_, rfl⟩
  · have g0 : (d ++ buf.drop d.length).getD 0 0 = d.getD 0 0 :=
      List.getD_append _ _ _ _ h0
    rw [receiveStep_eq buf d hb hd]
    simp only [g0]
    rw [if_neg hne]
  · rw [receiveStep_eq initBuf (strBytes "OK\n") initBuf_length (by decide)]
    decide

/-- C9 (witness): the general trimming statement at the concrete reply
datagram `"PONG"`. -/
theorem C9_reply_trimmed_witness :
    (receiveStep initBuf (strBytes "PONG")).2 =
      RecvAction.reply (trimSpace (strBytes "PONG")) :=
  C9_reply_trimmed.1 initBuf (strBytes "PONG") initBuf_length
    (by decide) (by decide) (by decide)

/-- C10: the mock lookup guard is `id < 0 || id > len(networks)`, so the
index `id = len(networks)` passes the guard and `w.networks[id]` panics:
with no stored networks, `REMOVE_NETWORK 0`, `ENABLE_NETWORK 0` and
`SET_NETWORK 0 ssid "x"` all panic instead of replying `"FAIL"`, while
indices strictly beyond the length are rejected with `"FAIL"`. -/
theorem C10_mock_lookup :
    processMockCommand [] "REMOVE_NETWORK 0" = MockResult.crash
    ∧ processMockCommand [] "ENABLE_NETWORK 0" = MockResult.crash
    ∧ processMockCommand [] "SET_NETWORK 0 ssid \"x\"" = MockResult.crash
    ∧ processMockCommand [] "REMOVE_NETWORK 1" = MockResult.reply [] "FAIL"
    ∧ processMockCommand [some { id := 0, ssid := "", psk := "", flags := "" }]
        "REMOVE_NETWORK 1" = MockResult.crash
    ∧ getNetwork [] 0 = NetLookup.crash := by
  decide

end GoWPA
